import Mathlib

/-!
Shallow embedding of `src/main.py`: an example script that creates a
prepackaged "sioux_falls" project in a fresh temp directory, configures
and executes a traffic assignment through an external library, saves the
final skims, and closes the project.  The script itself is straight-line
code; we embed each routine as the sequence of external calls (events) it
performs, with the library treated as a black box.
-/

/-- One call the worker makes against the external library or the
environment, with the arguments the source passes.  `removeTree` is in the
vocabulary so that the absence of any cleanup can be stated; the source
never emits it. -/
inductive Event where
  | createExample (fldr : String) (projName : String)
  | buildGraphs
  | getGraph (mode : String)
  | setGraph (costField : String)
  | setBlockedCentroidFlows (blocked : Bool)
  | matricesList
  | getMatrix (name : String)
  | computationalView (layers : List String)
  | newTrafficClass (name : String)
  | addClass (name : String)
  | setVdf (vdf : String)
  | setVdfParameters (params : List (String × String))
  | setCapacityField (f : String)
  | setTimeField (f : String)
  | setAlgorithm (alg : String)
  | setMaxIter (n : Nat)
  | setRgapTarget (q : ℚ)
  | execute
  | skimCongested (names : List String) (returnMatrices : Bool)
  | printSkimNames (cls : String)
  | saveSkims (name whichOnes fmt : String)
  | projectClose
  | printLine (s : String)
  | removeTree (path : String)
deriving DecidableEq

/-- `Path(gettempdir()) / "aequilibrae" / uuid4().hex` (main.py line 14):
the project directory for one worker invocation, as a function of the
system temp directory and the fresh random hex identifier. -/
def workerFldr (tmp hex : String) : String :=
  tmp ++ "/aequilibrae/" ++ hex

/-- The straight-line sequence of calls `worker()` performs
(main.py lines 13-83), in source order.  `tmp` is `gettempdir()` and
`hex` is `uuid4().hex`; `0.01` is embedded as the rational `1/100`. -/
def workerTrace (tmp hex : String) : List Event :=
  [ .createExample (workerFldr tmp hex) "sioux_falls",
    .buildGraphs,
    .getGraph "c",
    .setGraph "free_flow_time",
    .setBlockedCentroidFlows false,
    .matricesList,
    .getMatrix "demand_omx",
    .computationalView ["matrix"],
    .newTrafficClass "car",
    .addClass "car",
    .setVdf "BPR",
    .setVdfParameters [("alpha", "b"), ("beta", "power")],
    .setCapacityField "capacity",
    .setTimeField "free_flow_time",
    .setAlgorithm "bfw",
    .setMaxIter 10,
    .setRgapTarget (1/100),
    .execute,
    .skimCongested ["distance"] true,
    .printSkimNames "car",
    .saveSkims "base_year_assignment_skims" "final" "omx",
    .projectClose,
    .printLine "Worker done" ]

def Event.isSetVdf : Event → Bool
  | .setVdf _ => true
  | _ => false

def Event.isSetVdfParameters : Event → Bool
  | .setVdfParameters _ => true
  | _ => false

def Event.isSetCapacityField : Event → Bool
  | .setCapacityField _ => true
  | _ => false

def Event.isSetTimeField : Event → Bool
  | .setTimeField _ => true
  | _ => false

def Event.isSetAlgorithm : Event → Bool
  | .setAlgorithm _ => true
  | _ => false

def Event.isSetMaxIter : Event → Bool
  | .setMaxIter _ => true
  | _ => false

def Event.isSetRgapTarget : Event → Bool
  | .setRgapTarget _ => true
  | _ => false

def Event.isExecute : Event → Bool
  | .execute => true
  | _ => false

def Event.isSaveSkims : Event → Bool
  | .saveSkims _ _ _ => true
  | _ => false

def Event.isProjectClose : Event → Bool
  | .projectClose => true
  | _ => false

def Event.isSetBlockedCentroidFlows : Event → Bool
  | .setBlockedCentroidFlows _ => true
  | _ => false

def Event.isGetMatrix : Event → Bool
  | .getMatrix _ => true
  | _ => false

def Event.isComputationalView : Event → Bool
  | .computationalView _ => true
  | _ => false

def Event.isSetGraph : Event → Bool
  | .setGraph _ => true
  | _ => false

def Event.isCleanup : Event → Bool
  | .removeTree _ => true
  | _ => false

/-- First matrix name the worker fetches via `get_matrix` (main.py
line 38). -/
def getMatrixNameOf (T : List Event) : Option String :=
  T.findSome? fun e =>
    match e with
    | .getMatrix name => some name
    | _ => none

/-- First layer list the worker passes to `computational_view` (main.py
line 39). -/
def computationalViewOf (T : List Event) : Option (List String) :=
  T.findSome? fun e =>
    match e with
    | .computationalView layers => some layers
    | _ => none

/-- First capacity field set on the assignment (main.py line 58). -/
def capacityFieldOf (T : List Event) : Option String :=
  T.findSome? fun e =>
    match e with
    | .setCapacityField f => some f
    | _ => none

/-- First time field set on the assignment (main.py line 59). -/
def timeFieldOf (T : List Event) : Option String :=
  T.findSome? fun e =>
    match e with
    | .setTimeField f => some f
    | _ => none

/-- First cost field the graph is configured to minimize (main.py
line 27). -/
def graphCostFieldOf (T : List Event) : Option String :=
  T.findSome? fun e =>
    match e with
    | .setGraph f => some f
    | _ => none

/-- How one worker run ended: all calls completed, or an external-library
call at the given step raised. -/
inductive RunResult where
  | completed
  | raised (step : Nat)
deriving DecidableEq

/-- One worker run under a failure oracle: `fail = none` means every
external call succeeds and the full straight-line trace is performed;
`fail = some k` means the call at position `k` raises.  The source has no
try/except, so the exception propagates out of the worker: the calls
performed are exactly the prefix through the failing call, and nothing
else runs afterwards. -/
def workerRun (tmp hex : String) (fail : Option Nat) :
    List Event × RunResult :=
  match fail with
  | none => (workerTrace tmp hex, .completed)
  | some k => ((workerTrace tmp hex).take (k + 1), .raised k)

/-- `os.environ.get("MULTIPROCESSING_START_METHOD") or None`
(main.py line 87): an unset variable and the empty string both resolve to
`none`; any other value resolves to itself. -/
def resolveStartMethod (env : Option String) : Option String :=
  match env with
  | none => none
  | some s => if s = "" then none else some s

/-- The line printed by main.py line 89:
`f"Using start method {start_method or f'{default_start_method} (default)'}"`. -/
def printedStartMethodMsg (env : Option String) (dflt : String) : String :=
  match resolveStartMethod env with
  | none => "Using start method " ++ dflt ++ " (default)"
  | some s => "Using start method " ++ s

/-- The start method of the context returned by `get_context(start_method)`
(main.py line 90): `get_context(None)` yields the platform-default
context. -/
def contextStartMethod (env : Option String) (dflt : String) : String :=
  (resolveStartMethod env).getD dflt

/-- How the worker process ended: a normal exit, or termination on an
unhandled error with some exit status. -/
inductive WorkerOutcome where
  | completedOk
  | failed (exitCode : Int)
deriving DecidableEq

/-- One action of the parent routine `main()` (main.py lines 86-94). -/
inductive MainEvent where
  | printLine (s : String)
  | makeContext (method : String)
  | processStart
  | processJoin
deriving DecidableEq

/-- The sequence of actions `main()` performs (main.py lines 86-94) as a
function of the environment variable, the platform default start method,
and the worker's outcome.  The source is straight-line: it starts the
process, joins, and prints, with no inspection of the worker's result, so
the trace is the same for every outcome. -/
def mainTrace (env : Option String) (dflt : String) (_o : WorkerOutcome) :
    List MainEvent :=
  [ .printLine (printedStartMethodMsg env dflt),
    .makeContext (contextStartMethod env dflt),
    .processStart,
    .processJoin,
    .printLine "All done!" ]

/-- Claim C1: when the environment variable is unset or empty the launch
routine resolves the start method to the platform default and prints it
marked as default; otherwise it resolves to exactly the supplied value and
prints it; in both cases the context is created with the resolved
method. -/
theorem start_method_resolution (dflt s : String) (hs : s ≠ "") :
    (resolveStartMethod none = none
      ∧ printedStartMethodMsg none dflt
          = "Using start method " ++ dflt ++ " (default)"
      ∧ contextStartMethod none dflt = dflt)
    ∧ (resolveStartMethod (some "") = none
      ∧ printedStartMethodMsg (some "") dflt
          = "Using start method " ++ dflt ++ " (default)"
      ∧ contextStartMethod (some "") dflt = dflt)
    ∧ (resolveStartMethod (some s) = some s
      ∧ printedStartMethodMsg (some s) dflt = "Using start method " ++ s
      ∧ contextStartMethod (some s) dflt = s) := by
  refine ⟨⟨rfl, rfl, rfl⟩, ⟨rfl, rfl, rfl⟩, ?_, ?_, ?_⟩ <;>
    simp [resolveStartMethod, printedStartMethodMsg, contextStartMethod, hs]

/-- Claim C1 witness: instantiated at a concrete supplied value. -/
theorem start_method_resolution_witness :
    ("spawn" : String) ≠ ""
    ∧ (printedStartMethodMsg (some "spawn") "fork"
        = "Using start method " ++ "spawn"
      ∧ contextStartMethod (some "spawn") "fork" = "spawn"
      ∧ printedStartMethodMsg none "fork"
        = "Using start method " ++ "fork" ++ " (default)"
      ∧ contextStartMethod none "fork" = "fork") :=
  ⟨by decide,
    (start_method_resolution "fork" "spawn" (by decide)).2.2.2.1,
    (start_method_resolution "fork" "spawn" (by decide)).2.2.2.2,
    (start_method_resolution "fork" "spawn" (by decide)).1.2.1,
    (start_method_resolution "fork" "spawn" (by decide)).1.2.2⟩

/-- Claim C5: for every outcome of the worker process the parent's trace
is the same — after starting the process it only joins and then prints
"All done!"; it never inspects or branches on the worker's result. -/
theorem main_ignores_worker_outcome (env : Option String) (dflt : String)
    (o o' : WorkerOutcome) :
    mainTrace env dflt o = mainTrace env dflt o'
    ∧ mainTrace env dflt o
        = [ .printLine (printedStartMethodMsg env dflt),
            .makeContext (contextStartMethod env dflt),
            .processStart,
            .processJoin,
            .printLine "All done!" ] :=
  ⟨rfl, rfl⟩

/-- Claim C2: each configuration call — set_vdf, set_vdf_parameters,
set_capacity_field, set_time_field, set_algorithm, the iteration-cap
assignment and the relative-gap-target assignment — occurs exactly once in
the worker trace, and each occurs before the single execute() call. -/
theorem worker_config_once_before_execute (tmp hex : String) :
    ((workerTrace tmp hex).countP Event.isSetVdf = 1
      ∧ (workerTrace tmp hex).countP Event.isSetVdfParameters = 1
      ∧ (workerTrace tmp hex).countP Event.isSetCapacityField = 1
      ∧ (workerTrace tmp hex).countP Event.isSetTimeField = 1
      ∧ (workerTrace tmp hex).countP Event.isSetAlgorithm = 1
      ∧ (workerTrace tmp hex).countP Event.isSetMaxIter = 1
      ∧ (workerTrace tmp hex).countP Event.isSetRgapTarget = 1
      ∧ (workerTrace tmp hex).countP Event.isExecute = 1)
    ∧ ((workerTrace tmp hex).findIdx Event.isSetVdf
        < (workerTrace tmp hex).findIdx Event.isExecute
      ∧ (workerTrace tmp hex).findIdx Event.isSetVdfParameters
        < (workerTrace tmp hex).findIdx Event.isExecute
      ∧ (workerTrace tmp hex).findIdx Event.isSetCapacityField
        < (workerTrace tmp hex).findIdx Event.isExecute
      ∧ (workerTrace tmp hex).findIdx Event.isSetTimeField
        < (workerTrace tmp hex).findIdx Event.isExecute
      ∧ (workerTrace tmp hex).findIdx Event.isSetAlgorithm
        < (workerTrace tmp hex).findIdx Event.isExecute
      ∧ (workerTrace tmp hex).findIdx Event.isSetMaxIter
        < (workerTrace tmp hex).findIdx Event.isExecute
      ∧ (workerTrace tmp hex).findIdx Event.isSetRgapTarget
        < (workerTrace tmp hex).findIdx Event.isExecute) := by
  simp [workerTrace, List.countP_cons, List.findIdx_cons, Event.isSetVdf,
    Event.isSetVdfParameters, Event.isSetCapacityField, Event.isSetTimeField,
    Event.isSetAlgorithm, Event.isSetMaxIter, Event.isSetRgapTarget,
    Event.isExecute]

/-- Taking a prefix of a list never increases a `countP` count. -/
theorem countP_take_le {α : Type} (p : α → Bool) (l : List α) (n : Nat) :
    (l.take n).countP p ≤ l.countP p := by
  induction l generalizing n with
  | nil => simp
  | cons a as ih =>
    cases n with
    | zero => simp
    | succ m =>
      simp only [List.take_succ_cons, List.countP_cons]
      have := ih m
      omega

/-- Claim C3: the worker makes exactly one skim persistence call, and it
writes "base_year_assignment_skims" in OMX format requesting only the
final-iteration skims. -/
theorem worker_saves_final_skims_omx (tmp hex : String) :
    (workerTrace tmp hex).countP Event.isSaveSkims = 1
    ∧ Event.saveSkims "base_year_assignment_skims" "final" "omx"
        ∈ workerTrace tmp hex := by
  constructor
  · simp [workerTrace, List.countP_cons, Event.isSaveSkims]
  · simp [workerTrace]

/-- Claim C4: project.close() is invoked exactly once, after execute()
and after the skim file has been saved. -/
theorem worker_closes_project_last (tmp hex : String) :
    (workerTrace tmp hex).countP Event.isProjectClose = 1
    ∧ (workerTrace tmp hex).findIdx Event.isExecute
        < (workerTrace tmp hex).findIdx Event.isProjectClose
    ∧ (workerTrace tmp hex).findIdx Event.isSaveSkims
        < (workerTrace tmp hex).findIdx Event.isProjectClose := by
  simp [workerTrace, List.countP_cons, List.findIdx_cons,
    Event.isProjectClose, Event.isExecute, Event.isSaveSkims]

/-- Claim C6: the worker's project directory is
`<tempdir>/aequilibrae/<hex identifier>`, that directory is the one passed
to example-project creation, and two invocations drawing distinct
identifiers use distinct directories. -/
theorem worker_unique_project_dirs (tmp h1 h2 : String) (hne : h1 ≠ h2) :
    Event.createExample (workerFldr tmp h1) "sioux_falls"
        ∈ workerTrace tmp h1
    ∧ workerFldr tmp h1 = tmp ++ "/aequilibrae/" ++ h1
    ∧ workerFldr tmp h1 ≠ workerFldr tmp h2 := by
  refine ⟨by simp [workerTrace], rfl, fun h => hne ?_⟩
  have hd := congrArg String.data h
  simp only [workerFldr, String.data_append] at hd
  exact String.ext (List.append_cancel_left hd)

/-- Claim C6 witness: concrete distinct identifiers give distinct
directories. -/
theorem worker_unique_project_dirs_witness :
    ("a0" : String) ≠ "b1"
    ∧ workerFldr "/tmp" "a0" ≠ workerFldr "/tmp" "b1" :=
  ⟨by decide, (worker_unique_project_dirs "/tmp" "a0" "b1" (by decide)).2.2⟩

/-- Claim C7: the worker configures exactly the promised example
scenario — the bundled "sioux_falls" project, the car graph, a traffic
class named "car", VDF "BPR" with alpha from field "b" and beta from field
"power", algorithm "bfw", max_iter 10, rgap_target 0.01, and the
"distance" skim. -/
theorem worker_example_scenario (tmp hex : String) :
    Event.createExample (workerFldr tmp hex) "sioux_falls"
        ∈ workerTrace tmp hex
    ∧ Event.getGraph "c" ∈ workerTrace tmp hex
    ∧ Event.newTrafficClass "car" ∈ workerTrace tmp hex
    ∧ Event.setVdf "BPR" ∈ workerTrace tmp hex
    ∧ Event.setVdfParameters [("alpha", "b"), ("beta", "power")]
        ∈ workerTrace tmp hex
    ∧ Event.setAlgorithm "bfw" ∈ workerTrace tmp hex
    ∧ Event.setMaxIter 10 ∈ workerTrace tmp hex
    ∧ Event.setRgapTarget (1/100) ∈ workerTrace tmp hex
    ∧ Event.skimCongested ["distance"] true ∈ workerTrace tmp hex := by
  refine ⟨?_, ?_, ?_, ?_, ?_, ?_, ?_, ?_, ?_⟩ <;> simp [workerTrace]

/-- Claim C8: the worker has no error handling: a library call raising at
any step `k` propagates out (`RunResult.raised k`), the calls performed
are exactly the prefix through step `k`, no cleanup call is ever
performed, and a failure at any step after project creation leaves the
created project directory behind. -/
theorem worker_no_error_handling (tmp hex : String) (k : Nat)
    (_hk : k < (workerTrace tmp hex).length) :
    (workerRun tmp hex (some k)).2 = RunResult.raised k
    ∧ (workerRun tmp hex (some k)).1 = (workerTrace tmp hex).take (k + 1)
    ∧ (workerRun tmp hex (some k)).1.countP Event.isCleanup = 0
    ∧ (1 ≤ k →
        Event.createExample (workerFldr tmp hex) "sioux_falls"
          ∈ (workerRun tmp hex (some k)).1) := by
  refine ⟨rfl, rfl, ?_, ?_⟩
  · have hle := countP_take_le Event.isCleanup (workerTrace tmp hex) (k + 1)
    have hfull : (workerTrace tmp hex).countP Event.isCleanup = 0 := by
      simp [workerTrace, List.countP_cons, Event.isCleanup]
    simp only [workerRun]
    omega
  · intro _
    show Event.createExample (workerFldr tmp hex) "sioux_falls"
      ∈ (workerTrace tmp hex).take (k + 1)
    rw [show workerTrace tmp hex
        = Event.createExample (workerFldr tmp hex) "sioux_falls"
          :: (workerTrace tmp hex).tail from rfl,
      List.take_succ_cons]
    exact List.mem_cons_self _ _

/-- Claim C8 witness: a failure at step 5 propagates, performs no cleanup
and leaves the created project directory behind. -/
theorem worker_no_error_handling_witness :
    5 < (workerTrace "/tmp" "deadbeef").length
    ∧ ((workerRun "/tmp" "deadbeef" (some 5)).2 = RunResult.raised 5
      ∧ (workerRun "/tmp" "deadbeef" (some 5)).1
          = (workerTrace "/tmp" "deadbeef").take 6
      ∧ (workerRun "/tmp" "deadbeef" (some 5)).1.countP Event.isCleanup = 0
      ∧ (1 ≤ 5 →
          Event.createExample (workerFldr "/tmp" "deadbeef") "sioux_falls"
            ∈ (workerRun "/tmp" "deadbeef" (some 5)).1)) :=
  ⟨by decide, worker_no_error_handling "/tmp" "deadbeef" 5 (by decide)⟩

/-- Claim C9: the worker configures the car graph with blocked centroid
flows disabled, exactly once. -/
theorem worker_blocked_centroid_flows_disabled (tmp hex : String) :
    (workerTrace tmp hex).countP Event.isSetBlockedCentroidFlows = 1
    ∧ Event.setBlockedCentroidFlows false ∈ workerTrace tmp hex := by
  constructor
  · simp [workerTrace, List.countP_cons, Event.isSetBlockedCentroidFlows]
  · simp [workerTrace]

/-- Claim C10: the worker's only matrix fetch is "demand_omx" with
computational view restricted to the single layer "matrix", the capacity
field is "capacity", and the time field is "free_flow_time" — the same
field the graph is configured to minimize. -/
theorem worker_matrix_and_fields (tmp hex : String) :
    getMatrixNameOf (workerTrace tmp hex) = some "demand_omx"
    ∧ (workerTrace tmp hex).countP Event.isGetMatrix = 1
    ∧ computationalViewOf (workerTrace tmp hex) = some ["matrix"]
    ∧ (workerTrace tmp hex).countP Event.isComputationalView = 1
    ∧ capacityFieldOf (workerTrace tmp hex) = some "capacity"
    ∧ timeFieldOf (workerTrace tmp hex) = some "free_flow_time"
    ∧ (workerTrace tmp hex).countP Event.isSetTimeField = 1
    ∧ (workerTrace tmp hex).countP Event.isSetGraph = 1
    ∧ graphCostFieldOf (workerTrace tmp hex)
        = timeFieldOf (workerTrace tmp hex) := by
  refine ⟨rfl, ?_, rfl, ?_, rfl, rfl, ?_, ?_, rfl⟩ <;>
    simp [workerTrace, List.countP_cons, Event.isGetMatrix,
      Event.isComputationalView, Event.isSetTimeField, Event.isSetGraph]
